import Mathlib

/-!
# RecommendationTableView (`templates/table_maker.js`)

A shallow embedding of `dt_table`: the loader (`getdata` / `getRecs`), the five
column renderers handed to the grid widget, the `drawCallback` that builds the
card view, the `Change View` button action and the `a.toggle-vis` click handler.

Conventions of the embedding

* JavaScript string concatenation `+` is `++` on `String` (both associate to the
  left); reading a missing property (`undefined`) and concatenating it yields the
  text `undefined`.
* A JSON scalar used as an identifier is a `JsPrim`: a string, or an integer-valued
  number printed in plain decimal.
* The template placeholder `{{form.anime_or_manga.value}}` is the parameter
  `kind`, and the `{% if form.anime_or_manga == 'anime' %}` block is an `if` on
  the parameter `anime_or_manga`.
* `Array.prototype.sort` sorts in place and is stable; code that mutates an array
  reachable from `asyncData` returns the updated value next to its result.
* Weights and status codes are integers (`Int`), printed in plain decimal.
* A parsed body is a `Json`: `null`, an envelope, or another value whose handling is
  the grid library's; the loader stores whichever it is without a check.
* The DOM is explicit state: `Dom` for the table node and the button icons, a
  `List Bool` inside `Grid` for the column visibility kept by the grid.
-/

namespace TableMaker

/-! ## Data model -/

/-- A JSON scalar used as an identifier: a string or an integer-valued number. -/
inductive JsPrim where
  | str (s : String)
  | num (n : Int)
deriving DecidableEq, Repr

/-- The string JavaScript produces for the scalar, by `.toString()`, by `+` with a
string or as a property key. -/
def JsPrim.toJsString : JsPrim → String
  | .str s => s
  | .num n => toString n

/-- One `[contributingId, weight]` pair of a breakdown list. -/
abbrev Entry := JsPrim × Int

/-- A row of `asyncData.data`, fields in positional order `0 .. 4`. -/
structure Row where
  /-- position 0: the score -/
  score : Int
  /-- position 1: the image identifier -/
  image : JsPrim
  /-- position 2: the entity id -/
  id : JsPrim
  /-- position 3: the breakdown list -/
  breakdown : List Entry
  /-- position 4: the status code -/
  status : Int
deriving DecidableEq, Repr

/-- The parsed response held in `asyncData`. -/
structure Envelope where
  data : List Row
  names : List (String × String)
deriving DecidableEq, Repr

/-- The expression `asyncData.names[key]` in string context: the name stored under `key`,
or the text `undefined` when the object has no such property (properties inherited from
`Object.prototype` are not modelled). -/
def Envelope.name (asyncData : Envelope) (key : String) : String :=
  (asyncData.names.lookup key).getD "undefined"

/-! ## Column renderers -/

/-- Values to convert status integers to strings (lines 3-7). -/
def STATUS_ARRAY (anime_or_manga : String) : List String :=
  if anime_or_manga = "anime" then
    ["Not on List", "Watching", "Completed", "On-Hold", "Dropped", "Plan to Watch"]
  else
    ["Not on List", "Watching", "Completed", "On-Hold", "Dropped", "Plan to Watch"]

/-- Column `data: '1'` render (lines 50-53): `none` is the exception thrown when
`asyncData.data[meta.row]` is undefined. -/
def renderImage (kind : String) (asyncData : Envelope) (data : JsPrim) (metaRow : Nat) :
    Option String :=
  match asyncData.data[metaRow]? with
  | none => none
  | some full =>
    let anime_id := full.id
    some ("<a href=\"https://myanimelist.net/" ++ kind ++ "/" ++ anime_id.toJsString ++ "\">"
      ++ "<img src=\"https://api-cdn.myanimelist.net/images/" ++ kind ++ "/"
      ++ data.toJsString ++ ".jpg\">" ++ "</a>")

/-- Column `data: '2'` render (lines 58-60). -/
def renderName (kind : String) (asyncData : Envelope) (data : JsPrim) : String :=
  "<a href=\"https://myanimelist.net/" ++ kind ++ "/" ++ data.toJsString ++ "\">"
    ++ asyncData.name data.toJsString ++ "</a>"

/-- Column `data: '4'` render (lines 66-68): `STATUS_ARRAY[data]`, `none` being
`undefined`. -/
def renderStatus (anime_or_manga : String) (data : Int) : Option String :=
  if data < 0 then none else (STATUS_ARRAY anime_or_manga)[data.toNat]?

/-- Column `data: '0'` has no render function: the score is shown as it is. -/
def renderScore (data : Int) : Int := data

/-- The comparison function of line 79-81: `b[1] - a[1]`. -/
def compareFn (a b : Entry) : Int := b.2 - a.2

/-- Insertion step of the stable sort: `a`, which preceded every element of the list,
goes before the first `b` that the comparison does not put ahead of it. -/
def sortInsert (cmp : Entry → Entry → Int) (a : Entry) : List Entry → List Entry
  | [] => [a]
  | b :: l => if cmp a b ≤ 0 then a :: b :: l else b :: sortInsert cmp a l

/-- The array after `data.sort(cmp)`: ordered by `cmp`, elements that compare equal
kept in their original order. -/
def arraySort (cmp : Entry → Entry → Int) : List Entry → List Entry
  | [] => []
  | a :: l => sortInsert cmp a (arraySort cmp l)

/-- The text appended to `output` for one entry (line 85). -/
def liItem (asyncData : Envelope) (e : Entry) : String :=
  "<li>" ++ asyncData.name e.1.toJsString ++ " (" ++ toString e.2 ++ ")</li>"

/-- The `for` loop of lines 84-86 over the array `data`, starting from `output`. -/
def liLoop (asyncData : Envelope) (data : List Entry) (output : String) : String :=
  data.foldl (fun output e => output ++ liItem asyncData e) output

/-- Column `data: '3'` render (lines 77-90): the array as the in-place sort leaves it,
and the returned markup. -/
def renderBreakdown (asyncData : Envelope) (data : List Entry) : List Entry × String :=
  let data := arraySort compareFn data
  let output := liLoop asyncData data ""
  (data, "<div class=\"overflow-scroll\" style=\"max-height:300px\"><ul>" ++ output
    ++ "</ul></div>")

/-- The grid rendering the breakdown cell of row `row`: the array handed to the render
function is `asyncData.data[row][3]` itself, so the envelope is returned with that
array as the sort left it. `none` when there is no such row. -/
def renderBreakdownCell (asyncData : Envelope) (row : Nat) : Option (Envelope × String) :=
  match asyncData.data[row]? with
  | none => none
  | some full =>
    let r := renderBreakdown asyncData full.breakdown
    some ({ asyncData with data := asyncData.data.set row { full with breakdown := r.1 } }, r.2)

/-- The grid rendering the name cell of row `row` (column `data: '2'`). -/
def renderNameCell (kind : String) (asyncData : Envelope) (row : Nat) : Option String :=
  match asyncData.data[row]? with
  | none => none
  | some full => some (renderName kind asyncData full.id)

/-- The grid rendering the image cell of row `row` (column `data: '1'`). -/
def renderImageCell (kind : String) (asyncData : Envelope) (row : Nat) : Option String :=
  match asyncData.data[row]? with
  | none => none
  | some full => renderImage kind asyncData full.image row

/-- The grid rendering the status cell of row `row` (column `data: '4'`). -/
def renderStatusCell (anime_or_manga : String) (asyncData : Envelope) (row : Nat) :
    Option String :=
  match asyncData.data[row]? with
  | none => none
  | some full => renderStatus anime_or_manga full.status

/-! ## Loader -/

/-- The two states of the view. -/
inductive Phase where
  | Loading
  | Ready
deriving DecidableEq, Repr

/-- The grid built by `$('#example').DataTable(...)`: the rows it is bound to and the
visibility of its five columns. -/
structure Grid where
  data : List Row
  visible : List Bool
deriving DecidableEq, Repr

/-- The value `data.json()` resolves with when the body parses. The loader does not
check its shape (line 18 stores whatever was parsed), so every parsed value is a case. -/
inductive Json where
  /-- the value `null`: reading a property of it throws a `TypeError` -/
  | null
  /-- an object of the envelope shape -/
  | envelope (e : Envelope)
  /-- any other value (a scalar, an array, an object of another shape): reading its
  `data` property does not throw, and `built` is what the call of `DataTable` on it
  leaves in `table`, a grid or nothing when the library throws; that outcome is decided
  by the grid library and the page, not by this file -/
  | other (built : Option Grid)
deriving DecidableEq, Repr

/-- The response object that `fetch` resolves with; `json` is the outcome of
`data.json()`, `none` when the body does not parse. -/
structure Response where
  json : Option Json
deriving DecidableEq, Repr

/-- The variables of one `dt_table` call: `asyncData` (`none` while unassigned), the
number of times `initialiseTable` has run, and `table` (`none` until the grid is
constructed). -/
structure View where
  asyncData : Option Json
  initialiseCalls : Nat
  table : Option Grid
deriving DecidableEq, Repr

/-- The view is Ready once the grid exists and Loading until then. -/
def View.phase (v : View) : Phase :=
  match v.table with
  | none => .Loading
  | some _ => .Ready

/-- The `visible` setting of the five entries of `columns` (lines 45-93): only the
breakdown column sets `visible: false`. -/
def columnsVisible : List Bool := [true, true, true, true, false]

/-- The function `initialiseTable` (lines 26-148): builds the grid from `asyncData.data`.
With `asyncData` unassigned or `null` the read of `asyncData.data` on line 44 throws
while the options of `DataTable` are evaluated, so `DataTable` is not called and no grid
is stored. -/
def initialiseTable (v : View) : View :=
  let v := { v with initialiseCalls := v.initialiseCalls + 1 }
  match v.asyncData with
  | none => v
  | some .null => v
  | some (.envelope asyncData) =>
    { v with table := some { data := asyncData.data, visible := columnsVisible } }
  | some (.other built) => { v with table := built }

/-- The async function `getRecs` (lines 12-20). `fetch url` is `none` when the request
rejects; a rejected `await` ends the function, so the statements after it do not run.
Whatever value the body parses to is stored in `asyncData` and `initialiseTable` is
called. -/
def getRecs (fetch : String → Option Response) (url : String) (v : View) : View :=
  match fetch url with
  | none => v
  | some data =>
    match data.json with
    | none => v
    | some jsondata => initialiseTable { v with asyncData := some jsondata }

/-- The view before `getdata()` runs: `var asyncData;` is unassigned and there is no grid. -/
def initialView : View := { asyncData := none, initialiseCalls := 0, table := none }

/-- The body of `dt_table` (lines 1-150): declare `asyncData`, then `getdata()`. -/
def dt_table (fetch : String → Option Response) (url : String) : View :=
  getRecs fetch url initialView

/-! ## Column visibility -/

/-- The click event handed to the handler; `defaultPrevented` records a call of
`e.preventDefault()`. -/
structure ClickEvent where
  defaultPrevented : Bool
deriving DecidableEq, Repr

/-- The click handler of `a.toggle-vis` (lines 138-146) on an anchor whose `data-column`
is `dataColumn`. A selector that matches no column reads `undefined` and sets nothing. -/
def toggleVisClick (e : ClickEvent) (dataColumn : Nat) (table : Grid) : ClickEvent × Grid :=
  let e := { e with defaultPrevented := true }
  match table.visible[dataColumn]? with
  | none => (e, table)
  | some visible => (e, { table with visible := table.visible.set dataColumn (!visible) })

/-! ## Card view -/

/-- The CSS height of a body row: `auto`, or a number of pixels. -/
inductive Height where
  | auto
  | px (n : Nat)
deriving DecidableEq, Repr

/-- A body row: its CSS height, the height its content takes when laid out, and the
`data-label` attribute of each of its cells (`none` when absent). -/
structure Tr where
  height : Height
  content : Nat
  cells : List (Option String)
deriving DecidableEq, Repr

/-- The value of `$(this).height()`: the height set on the row, or the height of its
content when the CSS height is `auto`. -/
def Tr.measured (tr : Tr) : Nat :=
  match tr.height with
  | .auto => tr.content
  | .px n => n

/-- An element of class `fa` inside the button, with its two toggled classes. -/
structure Icon where
  faTable : Bool
  faIdBadge : Bool
deriving DecidableEq, Repr

/-- The part of the document the callbacks act on: the `cards` class of the table node,
the text of each `thead th`, the `tbody tr` rows of the current page, and the icons of
the button. -/
structure Dom where
  cards : Bool
  headers : List String
  rows : List Tr
  icons : List Icon
deriving DecidableEq, Repr

/-- The inner `each` of lines 111-113 over the cells of one row, `column` being the index
of the first cell of the list: `attr` with an `undefined` value sets nothing. -/
def setLabels (labels : List String) : Nat → List (Option String) → List (Option String)
  | _, [] => []
  | column, td :: tds =>
    (match labels[column]? with
      | some label => some label
      | none => td) :: setLabels labels (column + 1) tds

/-- The `each` of lines 117-119: `max = Math.max($(this).height(), max)` over the rows. -/
def maxHeight (rows : List Tr) (max : Nat) : Nat :=
  rows.foldl (fun max tr => Nat.max tr.measured max) max

/-- The draw callback (lines 97-132). -/
def drawCallback (table : Dom) : Dom :=
  if table.cards then
    let labels := table.headers
    let rows := table.rows.map (fun tr => { tr with cells := setLabels labels 0 tr.cells })
    let max := maxHeight rows 0
    { table with rows := rows.map (fun tr => { tr with height := .px max }) }
  else
    let rows := table.rows.map (fun tr => { tr with cells := tr.cells.map (fun _ => none) })
    { table with rows := rows.map (fun tr => { tr with height := .auto }) }

/-- The action of the Change View button (lines 36-40): toggle `cards`, toggle both icon
classes, then redraw the current page, which runs the draw callback. -/
def changeViewAction (table : Dom) : Dom :=
  let table := { table with cards := !table.cards }
  let icons := table.icons.map (fun i => { i with faTable := !i.faTable, faIdBadge := !i.faIdBadge })
  let table := { table with icons := icons }
  drawCallback table

/-! ## Example data -/

/-- The row of the worked example. -/
def exampleRow : Row where
  score := 85
  image := .num 123
  id := .str "456"
  breakdown := [(.str "789", 10), (.str "111", 5)]
  status := 1

/-- The envelope of the worked example. -/
def exampleEnvelope : Envelope where
  data := [exampleRow]
  names := [("456", "Show A"), ("789", "Contrib"), ("111", "Other")]

/-- The example row with its breakdown list in ascending weight order. -/
def unsortedRow : Row :=
  { exampleRow with breakdown := [(.str "111", 5), (.str "789", 10)] }

/-- The example envelope holding `unsortedRow`. -/
def unsortedEnvelope : Envelope where
  data := [unsortedRow]
  names := exampleEnvelope.names

/-- A fetch that resolves with a response whose body is the JSON text `null`. -/
def nullFetch : String → Option Response :=
  fun _ => some { json := some Json.null }

/-- A breakdown list with two entries of weight 5, a numeric id and a negative weight. -/
def tiedBreakdown : List Entry :=
  [(.str "111", 5), (.num 456, 5), (.str "789", 10), (.str "456", -3)]

/-- A table in table mode with two rows of four cells, one cell carrying a label and one
row a pixel height. -/
def exampleDom : Dom where
  cards := false
  headers := ["Image", "Name", "Status", "Score"]
  rows := [{ height := .auto, content := 220, cells := [none, none, none, none] },
           { height := .px 40, content := 310, cells := [some "stale", none, none, none] }]
  icons := [{ faTable := true, faIdBadge := false }]

/-! ## Lemmas on the sort and the loop -/

theorem sortInsert_perm (cmp : Entry → Entry → Int) (a : Entry) (l : List Entry) :
    (sortInsert cmp a l).Perm (a :: l) := by
  induction l with
  | nil => exact List.Perm.refl _
  | cons b l ih =>
    unfold sortInsert
    split
    · exact List.Perm.refl _
    · exact (List.Perm.cons b ih).trans (List.Perm.swap a b l)

theorem arraySort_perm (cmp : Entry → Entry → Int) (l : List Entry) :
    (arraySort cmp l).Perm l := by
  induction l with
  | nil => exact List.Perm.refl _
  | cons a l ih =>
    unfold arraySort
    exact (sortInsert_perm cmp a _).trans (List.Perm.cons a ih)

theorem sortInsert_sorted (a : Entry) (l : List Entry)
    (h : l.Pairwise (fun x y => y.2 ≤ x.2)) :
    (sortInsert compareFn a l).Pairwise (fun x y => y.2 ≤ x.2) := by
  induction l with
  | nil => simp [sortInsert]
  | cons b l ih =>
    unfold sortInsert
    rw [List.pairwise_cons] at h
    split
    · rename_i hab
      have hba : b.2 ≤ a.2 := by unfold compareFn at hab; omega
      refine List.pairwise_cons.mpr ⟨?_, List.pairwise_cons.mpr h⟩
      intro y hy
      rcases List.mem_cons.mp hy with rfl | hy
      · exact hba
      · exact le_trans (h.1 y hy) hba
    · rename_i hab
      have hab2 : a.2 ≤ b.2 := by unfold compareFn at hab; omega
      refine List.pairwise_cons.mpr ⟨?_, ih h.2⟩
      intro y hy
      rcases List.mem_cons.mp ((sortInsert_perm compareFn a l).subset hy) with rfl | hy
      · exact hab2
      · exact h.1 y hy

theorem arraySort_sorted (l : List Entry) :
    (arraySort compareFn l).Pairwise (fun x y => y.2 ≤ x.2) := by
  induction l with
  | nil => simp [arraySort]
  | cons a l ih => unfold arraySort; exact sortInsert_sorted a _ ih

theorem sortInsert_of_sorted (a : Entry) (l : List Entry)
    (h : ∀ y ∈ l, y.2 ≤ a.2) : sortInsert compareFn a l = a :: l := by
  cases l with
  | nil => rfl
  | cons b l =>
    have : compareFn a b ≤ 0 := by
      have := h b (List.mem_cons_self b l); unfold compareFn; omega
    simp [sortInsert, this]

theorem arraySort_of_sorted (l : List Entry)
    (h : l.Pairwise (fun x y => y.2 ≤ x.2)) : arraySort compareFn l = l := by
  induction l with
  | nil => rfl
  | cons a l ih =>
    rw [List.pairwise_cons] at h
    unfold arraySort
    rw [ih h.2]
    exact sortInsert_of_sorted a l h.1

theorem sortInsert_filter (k : Int) (a : Entry) (l : List Entry) :
    (sortInsert compareFn a l).filter (fun e => decide (e.2 = k))
      = (a :: l).filter (fun e => decide (e.2 = k)) := by
  induction l with
  | nil => rfl
  | cons b l ih =>
    unfold sortInsert
    split
    · rfl
    · rename_i hab
      have hlt : a.2 < b.2 := by unfold compareFn at hab; omega
      rw [List.filter_cons, ih]
      by_cases hb : b.2 = k
      · have ha : a.2 ≠ k := by omega
        simp [List.filter_cons, hb, ha]
      · simp [List.filter_cons, hb]

theorem arraySort_filter (k : Int) (l : List Entry) :
    (arraySort compareFn l).filter (fun e => decide (e.2 = k))
      = l.filter (fun e => decide (e.2 = k)) := by
  induction l with
  | nil => rfl
  | cons a l ih =>
    unfold arraySort
    rw [sortInsert_filter, List.filter_cons, List.filter_cons, ih]

theorem foldl_append_init (init : String) (l : List String) :
    List.foldl (fun r s => r ++ s) init l = init ++ List.foldl (fun r s => r ++ s) "" l := by
  induction l generalizing init with
  | nil => simp
  | cons s l ih =>
    simp only [List.foldl_cons]
    rw [ih (init ++ s), ih ("" ++ s)]
    simp [String.append_assoc]

theorem join_cons (s : String) (l : List String) :
    String.join (s :: l) = s ++ String.join l := by
  unfold String.join
  rw [List.foldl_cons, foldl_append_init]
  simp

theorem liLoop_eq (asyncData : Envelope) (data : List Entry) (output : String) :
    liLoop asyncData data output = output ++ String.join (data.map (liItem asyncData)) := by
  induction data generalizing output with
  | nil => simp [liLoop, String.join]
  | cons e l ih =>
    have h := ih (output ++ liItem asyncData e)
    simp only [liLoop, List.foldl_cons] at h ⊢
    rw [h, List.map_cons, join_cons, String.append_assoc]

theorem renderBreakdown_markup (asyncData : Envelope) (data : List Entry) :
    (renderBreakdown asyncData data).2
      = "<div class=\"overflow-scroll\" style=\"max-height:300px\"><ul>"
        ++ String.join ((renderBreakdown asyncData data).1.map (liItem asyncData))
        ++ "</ul></div>" := by
  simp [renderBreakdown, liLoop_eq]

theorem set_self_of_getElem? {α : Type} (l : List α) (i : Nat) (a : α) (h : l[i]? = some a) :
    l.set i a = l := by
  apply List.ext_getElem?
  intro j
  rw [List.getElem?_set]
  split
  · rename_i hij; subst hij
    split
    · exact h.symm
    · rename_i hlt
      rw [List.getElem?_eq_none (by omega)]
  · rfl

/-! ## Lemmas on the draw callback -/

theorem setLabels_idem (labels : List String) (column : Nat) (tds : List (Option String)) :
    setLabels labels column (setLabels labels column tds) = setLabels labels column tds := by
  induction tds generalizing column with
  | nil => rfl
  | cons td tds ih =>
    simp only [setLabels]
    rw [ih]
    cases labels[column]? <;> rfl

theorem setLabels_map_none (labels : List String) (column : Nat) (tds : List (Option String)) :
    (setLabels labels column tds).map (fun _ => (none : Option String))
      = tds.map (fun _ => none) := by
  induction tds generalizing column with
  | nil => rfl
  | cons td tds ih => simp only [setLabels, List.map_cons, ih]

theorem maxHeight_const (M : Nat) (rows : List Tr) (h : ∀ tr ∈ rows, tr.measured = M) :
    maxHeight rows M = M := by
  induction rows with
  | nil => rfl
  | cons tr rows ih =>
    unfold maxHeight at ih ⊢
    rw [List.foldl_cons, h tr (List.mem_cons_self _ _)]
    simpa using ih (fun t ht => h t (List.mem_cons_of_mem _ ht))

theorem maxHeight_const_zero (M : Nat) (rows : List Tr) (h : ∀ tr ∈ rows, tr.measured = M)
    (hne : rows ≠ []) : maxHeight rows 0 = M := by
  cases rows with
  | nil => exact absurd rfl hne
  | cons tr rows =>
    unfold maxHeight
    rw [List.foldl_cons, h tr (List.mem_cons_self _ _)]
    simpa [maxHeight] using maxHeight_const M rows (fun t ht => h t (List.mem_cons_of_mem _ ht))

theorem cards_rows_fixed (labels : List String) (M : Nat) (rows : List Tr) :
    (((rows.map (fun tr => { tr with cells := setLabels labels 0 tr.cells })).map
        (fun tr => { tr with height := Height.px M })).map
        (fun tr => { tr with cells := setLabels labels 0 tr.cells }))
      = (rows.map (fun tr => { tr with cells := setLabels labels 0 tr.cells })).map
        (fun tr => { tr with height := Height.px M }) := by
  simp [List.map_map, Function.comp_def, setLabels_idem]

theorem cards_rows_measured (M : Nat) (rows : List Tr) :
    ∀ tr ∈ rows.map (fun tr => { tr with height := Height.px M }), tr.measured = M := by
  intro tr htr
  rcases List.mem_map.mp htr with ⟨t, _, rfl⟩
  rfl

theorem maxHeight_after_cards (M : Nat) (rows : List Tr) (hne : rows ≠ []) :
    maxHeight (rows.map (fun tr : Tr => { tr with height := Height.px M })) 0 = M :=
  maxHeight_const_zero M _ (cards_rows_measured M rows) (by simpa using hne)

theorem clear_after_cards (labels : List String) (M : Nat) (rows : List Tr) :
    ((((rows.map (fun tr => { tr with cells := setLabels labels 0 tr.cells })).map
        (fun tr => { tr with height := Height.px M })).map
        (fun tr => { tr with cells := tr.cells.map (fun _ => (none : Option String)) })).map
        (fun tr => { tr with height := Height.auto }))
      = rows.map (fun tr : Tr =>
          { tr with height := Height.auto, cells := tr.cells.map (fun _ => none) }) := by
  simp only [List.map_map]
  apply List.map_congr_left
  intro tr _
  simp only [Function.comp, setLabels_map_none]

/-! ## The claims -/

/-- Claim C1: for every envelope and breakdown list, the markup of the Breakdown renderer
is the fixed container around the `<li>` items of the sorted array, one item per entry;
the sorted array has the length of the input, is a permutation of it (every entry exactly
once) and is in non-increasing weight order. On the example, `Contrib (10)` comes before
`Other (5)`. -/
theorem breakdown_items_complete_and_descending (asyncData : Envelope) (data : List Entry) :
    (renderBreakdown asyncData data).2
        = "<div class=\"overflow-scroll\" style=\"max-height:300px\"><ul>"
          ++ String.join ((arraySort compareFn data).map (liItem asyncData))
          ++ "</ul></div>"
      ∧ ((arraySort compareFn data).map (liItem asyncData)).length = data.length
      ∧ (arraySort compareFn data).Perm data
      ∧ (arraySort compareFn data).Pairwise (fun x y => y.2 ≤ x.2)
      ∧ (renderBreakdown exampleEnvelope [(.str "789", 10), (.str "111", 5)]).2
          = "<div class=\"overflow-scroll\" style=\"max-height:300px\"><ul>"
            ++ "<li>Contrib (10)</li>" ++ "<li>Other (5)</li>" ++ "</ul></div>" := by
  refine ⟨renderBreakdown_markup asyncData data, ?_, arraySort_perm _ _,
    arraySort_sorted _, by decide⟩
  rw [List.length_map]; exact (arraySort_perm _ _).length_eq

/-- Counterexample to claim C2: rendering the breakdown cell of row 0 of an envelope whose
breakdown list is in ascending weight order leaves a different envelope, the one with the
list reordered. -/
theorem breakdown_cell_mutates_envelope :
    (renderBreakdownCell unsortedEnvelope 0).map Prod.fst = some exampleEnvelope
      ∧ exampleEnvelope ≠ unsortedEnvelope
      ∧ exampleEnvelope.data.map Row.breakdown ≠ unsortedEnvelope.data.map Row.breakdown := by
  decide

/-- Claim C2 as amended: the Breakdown renderer sorts the array of the row in place. After
it has run on row `row`, the names, the number of rows and every other row are unchanged,
and row `row` differs at most in its breakdown list, which holds the same entries in
non-increasing weight order with equal weights in their original order; the envelope is
unchanged when the list was already in that order. -/
theorem breakdown_cell_frame (asyncData : Envelope) (row : Nat) (full : Row)
    (h : asyncData.data[row]? = some full) :
    ∃ after html, renderBreakdownCell asyncData row = some (after, html)
      ∧ after.names = asyncData.names
      ∧ after.data.length = asyncData.data.length
      ∧ (∀ j, j ≠ row → after.data[j]? = asyncData.data[j]?)
      ∧ after.data[row]? = some { full with breakdown := arraySort compareFn full.breakdown }
      ∧ (arraySort compareFn full.breakdown).Perm full.breakdown
      ∧ (arraySort compareFn full.breakdown).Pairwise (fun x y => y.2 ≤ x.2)
      ∧ (∀ k : Int, (arraySort compareFn full.breakdown).filter (fun e => decide (e.2 = k))
            = full.breakdown.filter (fun e => decide (e.2 = k)))
      ∧ (full.breakdown.Pairwise (fun x y => y.2 ≤ x.2) → after = asyncData) := by
  have hlt : row < asyncData.data.length := by
    rcases Nat.lt_or_ge row asyncData.data.length with h1 | h1
    · exact h1
    · rw [List.getElem?_eq_none h1] at h; cases h
  refine ⟨{ asyncData with data := (asyncData.data.set row { full with breakdown := (renderBreakdown asyncData full.breakdown).1 }) },
    (renderBreakdown asyncData full.breakdown).2,
    by simp only [renderBreakdownCell, h], rfl, ?_, ?_, ?_, arraySort_perm _ _,
    arraySort_sorted _, fun k => arraySort_filter k _, ?_⟩
  · simp [renderBreakdown]
  · intro j hj
    simp only [renderBreakdown]
    rw [List.getElem?_set]
    rw [if_neg (fun e => hj e.symm)]
  · simp only [renderBreakdown]
    rw [List.getElem?_set]
    simp [hlt]
  · intro hs
    simp only [renderBreakdown]
    rw [arraySort_of_sorted _ hs]
    have : ({ full with breakdown := full.breakdown } : Row) = full := rfl
    rw [this, set_self_of_getElem? _ _ _ h]

theorem breakdown_cell_frame_witness :
    unsortedEnvelope.data[0]? = some unsortedRow
      ∧ (renderBreakdownCell unsortedEnvelope 0).map (fun r => r.1.names)
        = some unsortedEnvelope.names
      ∧ (renderBreakdownCell unsortedEnvelope 0).map (fun r => r.1.data[0]?)
        = some (some exampleRow) :=
  ⟨by decide, by
    obtain ⟨a, html, h1, h2, _⟩ := breakdown_cell_frame unsortedEnvelope 0 unsortedRow (by decide)
    rw [h1]; exact congrArg some h2, by
    obtain ⟨a, html, h1, _, _, _, h5, _⟩ :=
      breakdown_cell_frame unsortedEnvelope 0 unsortedRow (by decide)
    rw [h1]; exact congrArg some h5⟩

/-- Claim C3: for every status code `c` in `0 .. 5` the Status renderer returns the `c`-th
element of the fixed list of six labels, and the result is the same for every entity
kind. -/
theorem status_label_of_code (anime_or_manga other : String) (c : Int)
    (h0 : 0 ≤ c) (h5 : c ≤ 5) :
    renderStatus anime_or_manga c
        = ["Not on List", "Watching", "Completed", "On-Hold", "Dropped",
            "Plan to Watch"][c.toNat]?
      ∧ (renderStatus anime_or_manga c).isSome = true
      ∧ renderStatus anime_or_manga c = renderStatus other c := by
  have key : ∀ k : String, renderStatus k c
      = ["Not on List", "Watching", "Completed", "On-Hold", "Dropped",
          "Plan to Watch"][c.toNat]? := by
    intro k
    unfold renderStatus STATUS_ARRAY
    rw [if_neg (by omega)]
    split <;> rfl
  refine ⟨key _, ?_, by rw [key, key]⟩
  rw [key]
  interval_cases c <;> rfl

theorem status_label_of_code_witness :
    (0 : Int) ≤ 1 ∧ (1 : Int) ≤ 5 ∧ renderStatus "anime" 1 = some "Watching"
      ∧ renderStatus "anime" 1 = renderStatus "manga" 1 :=
  ⟨by decide, by decide, (status_label_of_code "anime" "manga" 1 (by decide) (by decide)).1,
    (status_label_of_code "anime" "manga" 1 (by decide) (by decide)).2.2⟩

/-- Claim C4: for every entity kind, envelope and entity id `d` that is a key of the names
mapping, the Name+Link renderer returns the anchor to the detail page of `d` whose label
is the name stored for `d`; for row 0 of the example envelope that is the link to the
detail page of id 456 labelled Show A. -/
theorem name_link_of_key (kind : String) (asyncData : Envelope) (d : JsPrim) (n : String)
    (h : asyncData.names.lookup d.toJsString = some n) :
    renderName kind asyncData d
        = "<a href=\"https://myanimelist.net/" ++ kind ++ "/" ++ d.toJsString ++ "\">" ++ n
          ++ "</a>"
      ∧ renderNameCell kind exampleEnvelope 0
        = some ("<a href=\"https://myanimelist.net/" ++ kind ++ "/" ++ "456" ++ "\">"
            ++ "Show A" ++ "</a>") := by
  constructor
  · simp [renderName, Envelope.name, h]
  · rfl

theorem name_link_of_key_witness :
    exampleEnvelope.names.lookup (JsPrim.str "456").toJsString = some "Show A"
      ∧ renderName "anime" exampleEnvelope (.str "456")
        = "<a href=\"https://myanimelist.net/anime/456\">Show A</a>" :=
  ⟨by decide, (name_link_of_key "anime" exampleEnvelope (.str "456") "Show A" (by decide)).1⟩

/-- Claim C5: for every entity kind, envelope and row index inside the data, the Image+Link
renderer called on the image identifier of that row returns an anchor whose href is the
detail page of the entity id of the row, around an image whose src is the CDN address of
the image identifier; the Name+Link renderer of the same row has the same href. -/
theorem image_link_of_row (kind : String) (asyncData : Envelope) (i : Nat) (full : Row)
    (h : asyncData.data[i]? = some full) :
    renderImage kind asyncData full.image i
        = some ("<a href=\"" ++ ("https://myanimelist.net/" ++ kind ++ "/" ++ full.id.toJsString)
            ++ "\">" ++ ("<img src=\""
              ++ ("https://api-cdn.myanimelist.net/images/" ++ kind ++ "/"
                  ++ full.image.toJsString ++ ".jpg")
              ++ "\">") ++ "</a>")
      ∧ renderImageCell kind asyncData i = renderImage kind asyncData full.image i
      ∧ renderNameCell kind asyncData i
        = some ("<a href=\"" ++ ("https://myanimelist.net/" ++ kind ++ "/" ++ full.id.toJsString)
            ++ "\">" ++ asyncData.name full.id.toJsString ++ "</a>") := by
  have e1 : "<a href=\"https://myanimelist.net/" = "<a href=\"" ++ "https://myanimelist.net/" := by
    decide
  have e2 : "<img src=\"https://api-cdn.myanimelist.net/images/"
      = "<img src=\"" ++ "https://api-cdn.myanimelist.net/images/" := by decide
  have e3 : ".jpg\">" = ".jpg" ++ "\">" := by decide
  refine ⟨?_, ?_, ?_⟩
  · simp only [renderImage, h, e1, e2, e3, String.append_assoc]
  · simp only [renderImageCell, h]
  · simp only [renderNameCell, renderName, h, e1, String.append_assoc]

theorem image_link_of_row_witness :
    exampleEnvelope.data[0]? = some exampleRow
      ∧ renderImageCell "anime" exampleEnvelope 0
        = some ("<a href=\"https://myanimelist.net/anime/456\">"
            ++ "<img src=\"https://api-cdn.myanimelist.net/images/anime/123.jpg\">" ++ "</a>") :=
  ⟨by decide, by
    have h := image_link_of_row "anime" exampleEnvelope 0 exampleRow (by decide)
    rw [h.2.1, h.1]; decide⟩

/-- Counterexample to claim C6: when the body is the JSON text `null`, the fetch and the
parse both succeed, `asyncData` is assigned and `initialiseTable` is called, but the read
of `asyncData.data` throws before the grid is constructed, so the view is not Ready: the
equivalence between Ready and the success of fetch and parse fails. -/
theorem null_body_parsed_but_not_ready :
    nullFetch "recs.json" = some { json := some Json.null }
      ∧ ((nullFetch "recs.json").bind Response.json).isSome = true
      ∧ (dt_table nullFetch "recs.json").asyncData = some Json.null
      ∧ (dt_table nullFetch "recs.json").initialiseCalls = 1
      ∧ (dt_table nullFetch "recs.json").table = none
      ∧ (dt_table nullFetch "recs.json").phase = Phase.Loading
      ∧ ¬ ((dt_table nullFetch "recs.json").phase = Phase.Ready
            ↔ ((nullFetch "recs.json").bind Response.json).isSome = true) := by
  decide

/-- Claim C6 as amended: the view is Ready only if the fetch and the JSON parse both
succeeded, with a parsed value other than `null`; when both succeed and the parsed value is
an envelope, the view is Ready, `asyncData` holds the envelope, `initialiseTable` has run
once and the grid is bound to the rows; when the fetch rejects or the parse fails,
`asyncData` stays unassigned, `initialiseTable` has not run, there is no grid and the view
is Loading; when the parsed value is `null`, `asyncData` is assigned and `initialiseTable`
has run once, but there is no grid and the view is Loading. -/
theorem loader_outcomes (fetch : String → Option Response) (url : String) :
    ((dt_table fetch url).phase = Phase.Ready →
        ∃ data jsondata, fetch url = some data ∧ data.json = some jsondata
          ∧ jsondata ≠ Json.null)
      ∧ (∀ data e, fetch url = some data → data.json = some (Json.envelope e) →
          dt_table fetch url
              = { asyncData := some (Json.envelope e), initialiseCalls := 1,
                  table := some { data := e.data, visible := columnsVisible } }
            ∧ (dt_table fetch url).phase = Phase.Ready)
      ∧ ((fetch url = none ∨ ∃ data, fetch url = some data ∧ data.json = none) →
          (dt_table fetch url).asyncData = none
            ∧ (dt_table fetch url).initialiseCalls = 0
            ∧ (dt_table fetch url).table = none
            ∧ (dt_table fetch url).phase = Phase.Loading)
      ∧ (∀ data, fetch url = some data → data.json = some Json.null →
          (dt_table fetch url).asyncData = some Json.null
            ∧ (dt_table fetch url).initialiseCalls = 1
            ∧ (dt_table fetch url).table = none
            ∧ (dt_table fetch url).phase = Phase.Loading) := by
  have hrun : dt_table fetch url
      = match fetch url with
        | none => initialView
        | some data =>
          match data.json with
          | none => initialView
          | some jsondata => initialiseTable { initialView with asyncData := some jsondata } :=
    rfl
  rw [hrun]
  cases hf : fetch url with
  | none =>
    refine ⟨?_, ?_, ?_, ?_⟩
    · intro h; exact absurd h (by decide)
    · intro d e hd; cases hd
    · intro _; exact ⟨rfl, rfl, rfl, rfl⟩
    · intro d hd; cases hd
  | some data =>
    dsimp only
    cases hj : data.json with
    | none =>
      dsimp only
      refine ⟨?_, ?_, ?_, ?_⟩
      · intro h; exact absurd h (by decide)
      · intro d e hd hdj
        cases hd; rw [hj] at hdj; cases hdj
      · intro _; exact ⟨rfl, rfl, rfl, rfl⟩
      · intro d hd hdj
        cases hd; rw [hj] at hdj; cases hdj
    | some jsondata =>
      dsimp only
      refine ⟨?_, ?_, ?_, ?_⟩
      · intro h
        refine ⟨data, jsondata, rfl, hj, ?_⟩
        intro hnull
        rw [hnull] at h
        exact absurd h (by decide)
      · intro d e hd hdj
        cases hd; rw [hj] at hdj; cases hdj
        exact ⟨rfl, rfl⟩
      · rintro (h | ⟨d, hd, hdj⟩)
        · cases h
        · cases hd; rw [hj] at hdj; cases hdj
      · intro d hd hdj
        cases hd; rw [hj] at hdj; cases hdj
        exact ⟨rfl, rfl, rfl, rfl⟩

theorem loader_outcomes_witness :
    (dt_table (fun _ => some { json := some (Json.envelope exampleEnvelope) }) "recs.json").phase
        = Phase.Ready
      ∧ (dt_table (fun _ => some { json := none }) "recs.json").table = none
      ∧ (dt_table (fun _ => none) "recs.json").initialiseCalls = 0
      ∧ (dt_table nullFetch "recs.json").phase = Phase.Loading :=
  ⟨((loader_outcomes (fun _ => some { json := some (Json.envelope exampleEnvelope) })
      "recs.json").2.1 _ _ rfl rfl).2,
   ((loader_outcomes (fun _ => some { json := none }) "recs.json").2.2.1
      (Or.inr ⟨_, rfl, rfl⟩)).2.2.1,
   ((loader_outcomes (fun _ => none) "recs.json").2.2.1 (Or.inl rfl)).2.1,
   ((loader_outcomes nullFetch "recs.json").2.2.2 _ rfl rfl).2.2.2⟩

/-- Claim C7: with the column visibility as a list of booleans, initially visible for
columns 0-3 and hidden for column 4, the click handler on an anchor naming a column `j` in
range calls `preventDefault`, negates the visibility of column `j` and leaves every other
column as it was. -/
theorem toggle_vis_flips_only_target (e : ClickEvent) (table : Grid) (j : Nat)
    (hj : j < table.visible.length) :
    (toggleVisClick e j table).1.defaultPrevented = true
      ∧ (toggleVisClick e j table).2.visible[j]? = (table.visible[j]?).map (fun v => !v)
      ∧ (∀ k, k ≠ j → (toggleVisClick e j table).2.visible[k]? = table.visible[k]?)
      ∧ (toggleVisClick e j table).2.visible.length = table.visible.length
      ∧ (toggleVisClick e j table).2.data = table.data
      ∧ columnsVisible = [true, true, true, true, false] := by
  unfold toggleVisClick
  rw [List.getElem?_eq_getElem hj]
  refine ⟨rfl, ?_, ?_, ?_, rfl, rfl⟩
  · simp [List.getElem?_set, hj]
  · intro k hk
    simp only [List.getElem?_set]
    rw [if_neg (fun h => hk h.symm)]
  · simp

theorem toggle_vis_flips_only_target_witness :
    4 < columnsVisible.length
      ∧ (toggleVisClick { defaultPrevented := false } 4
          { data := [], visible := columnsVisible }).2.visible[4]? = some true :=
  ⟨by decide, (toggle_vis_flips_only_target { defaultPrevented := false }
      { data := [], visible := columnsVisible } 4 (by decide)).2.1⟩

/-- Claim C8: for every table state, in card mode or not, running the draw callback twice
gives the same state as running it once. -/
theorem drawCallback_idempotent (table : Dom) :
    drawCallback (drawCallback table) = drawCallback table := by
  cases hc : table.cards with
  | false =>
    simp [drawCallback, hc, List.map_map, Function.comp_def]
  | true =>
    simp only [drawCallback, hc, if_true]
    rw [cards_rows_fixed]
    by_cases hne : table.rows = []
    · simp [hne]
    · rw [maxHeight_after_cards _ _ (by simpa using hne)]
      simp [List.map_map, Function.comp_def]

/-- Claim C9: from a state in table mode, applying the Change View action twice gives a
state in table mode again in which no body cell carries a label and every body row has
height `auto`; the rows and their cells are otherwise those of the start. -/
theorem change_view_twice_clears (table : Dom) (h : table.cards = false) :
    (changeViewAction (changeViewAction table)).cards = false
      ∧ (∀ tr ∈ (changeViewAction (changeViewAction table)).rows,
          tr.height = Height.auto ∧ ∀ td ∈ tr.cells, td = none)
      ∧ (changeViewAction (changeViewAction table)).rows
          = table.rows.map (fun tr : Tr =>
              { tr with height := Height.auto, cells := tr.cells.map (fun _ => none) })
      ∧ (changeViewAction (changeViewAction table)).headers = table.headers
      ∧ (changeViewAction (changeViewAction table)).icons = table.icons := by
  have hrows : (changeViewAction (changeViewAction table)).rows
      = table.rows.map (fun tr : Tr =>
          { tr with height := Height.auto, cells := tr.cells.map (fun _ => none) }) := by
    simp only [changeViewAction, drawCallback, h, Bool.not_false, Bool.not_true, if_true,
      Bool.false_eq_true, if_false]
    exact clear_after_cards _ _ _
  refine ⟨?_, ?_, hrows, ?_, ?_⟩
  · simp [changeViewAction, drawCallback, h]
  · rw [hrows]
    intro tr htr
    rcases List.mem_map.mp htr with ⟨t, _, rfl⟩
    refine ⟨rfl, ?_⟩
    intro td htd
    rcases List.mem_map.mp htd with ⟨_, _, rfl⟩
    rfl
  · simp [changeViewAction, drawCallback, h]
  · simp [changeViewAction, drawCallback, h, List.map_map, Function.comp_def]

theorem change_view_twice_clears_witness :
    exampleDom.cards = false
      ∧ (changeViewAction (changeViewAction exampleDom)).rows
        = [{ height := .auto, content := 220, cells := [none, none, none, none] },
           { height := .auto, content := 310, cells := [none, none, none, none] }] :=
  ⟨rfl, (change_view_twice_clears exampleDom rfl).2.2.1⟩

/-- Claim C10: a second call of the Breakdown renderer on the array the first call left
returns the same markup, which is the fixed container around one item
`<li>` ++ names[id] ++ ` (` ++ weight ++ `)</li>` per entry of the sorted array, the label
being the name stored under the id; the array after either call is a permutation of the
input in non-increasing weight order in which the entries of each weight keep their
original relative order. For a single entry whose id is a key the item carries the stored
name, and on a list with two entries of weight 5 both calls return the four items in the
order 10, 5, 5, -3 with the two ties in input order. -/
theorem breakdown_rerender_same_markup (asyncData : Envelope) (data : List Entry) :
    (renderBreakdown asyncData (renderBreakdown asyncData data).1).2
        = (renderBreakdown asyncData data).2
      ∧ (renderBreakdown asyncData (renderBreakdown asyncData data).1).1
        = (renderBreakdown asyncData data).1
      ∧ (renderBreakdown asyncData data).2
        = "<div class=\"overflow-scroll\" style=\"max-height:300px\"><ul>"
          ++ String.join ((renderBreakdown asyncData data).1.map (fun e =>
              "<li>" ++ asyncData.name e.1.toJsString ++ " (" ++ toString e.2 ++ ")</li>"))
          ++ "</ul></div>"
      ∧ (renderBreakdown asyncData data).1.Perm data
      ∧ (renderBreakdown asyncData data).1.Pairwise (fun x y => y.2 ≤ x.2)
      ∧ (∀ k : Int, (renderBreakdown asyncData data).1.filter (fun e => decide (e.2 = k))
            = data.filter (fun e => decide (e.2 = k)))
      ∧ (∀ k : Int, (renderBreakdown asyncData (renderBreakdown asyncData data).1).1.filter
              (fun e => decide (e.2 = k))
            = data.filter (fun e => decide (e.2 = k)))
      ∧ (renderBreakdown asyncData data).2
        = "<div class=\"overflow-scroll\" style=\"max-height:300px\"><ul>"
          ++ String.join ((renderBreakdown asyncData data).1.map (fun e =>
              "<li>"
                ++ (match asyncData.names.lookup
                      (match e.1 with
                        | JsPrim.str s => s
                        | JsPrim.num n => toString n) with
                    | some name => name
                    | none => "undefined")
                ++ " (" ++ toString e.2 ++ ")</li>"))
          ++ "</ul></div>"
      ∧ (∀ (rows : List Row) (s name : String) (w : Int),
          (renderBreakdown { data := rows, names := [(s, name)] } [(JsPrim.str s, w)]).2
            = "<div class=\"overflow-scroll\" style=\"max-height:300px\"><ul>"
              ++ ("<li>" ++ name ++ " (" ++ toString w ++ ")</li>") ++ "</ul></div>")
      ∧ (renderBreakdown exampleEnvelope tiedBreakdown).1
          = [(.str "789", 10), (.str "111", 5), (.num 456, 5), (.str "456", -3)]
      ∧ (renderBreakdown exampleEnvelope tiedBreakdown).2
          = "<div class=\"overflow-scroll\" style=\"max-height:300px\"><ul>"
            ++ "<li>Contrib (10)</li>" ++ "<li>Other (5)</li>" ++ "<li>Show A (5)</li>"
            ++ "<li>Show A (-3)</li>" ++ "</ul></div>"
      ∧ (renderBreakdown exampleEnvelope (renderBreakdown exampleEnvelope tiedBreakdown).1).2
          = "<div class=\"overflow-scroll\" style=\"max-height:300px\"><ul>"
            ++ "<li>Contrib (10)</li>" ++ "<li>Other (5)</li>" ++ "<li>Show A (5)</li>"
            ++ "<li>Show A (-3)</li>" ++ "</ul></div>" := by
  have hfix : arraySort compareFn (arraySort compareFn data) = arraySort compareFn data :=
    arraySort_of_sorted _ (arraySort_sorted data)
  have h1 : (renderBreakdown asyncData data).1 = arraySort compareFn data := rfl
  have h2 : (renderBreakdown asyncData (arraySort compareFn data))
      = renderBreakdown asyncData data := by
    simp only [renderBreakdown, hfix]
  have hitem : liItem asyncData = (fun e =>
      "<li>"
        ++ (match asyncData.names.lookup
              (match e.1 with
                | JsPrim.str s => s
                | JsPrim.num n => toString n) with
            | some name => name
            | none => "undefined")
        ++ " (" ++ toString e.2 ++ ")</li>") := by
    funext e
    obtain ⟨id, w⟩ := e
    cases id <;>
      (simp only [liItem, Envelope.name, JsPrim.toJsString]
       cases asyncData.names.lookup _ <;> rfl)
  refine ⟨by rw [h1, h2], by rw [h1, h2, h1], renderBreakdown_markup asyncData data, ?_, ?_,
    ?_, ?_, ?_, ?_, by decide, by decide, by decide⟩
  · rw [h1]; exact arraySort_perm _ _
  · rw [h1]; exact arraySort_sorted _
  · intro k; rw [h1]; exact arraySort_filter k _
  · intro k; rw [h1, h2, h1]; exact arraySort_filter k _
  · rw [← hitem]; exact renderBreakdown_markup asyncData data
  · intro rows s name w
    rw [renderBreakdown_markup]
    simp [renderBreakdown, arraySort, sortInsert, liItem, Envelope.name, JsPrim.toJsString,
      List.lookup, String.join]

end TableMaker
